import Mathlib

/-!
# dusnet `handler` package: write path, read-decode-dispatch cycle, builder

A shallow embedding of `src/handler/zhandler.go`.

* Handler objects are reached through pointers in the Go code, so they live in a
  heap indexed by `HandlerRef`, and every method takes its receiver as a reference.
* Connections, the codec results, the registered handlers' `HandleMsg` and the
  logger are collaborators declared outside this file. They are parameters of
  the model (`Env`), and every call this package makes to one of them is
  appended to a trace, so that "is invoked once" and "is never invoked" are
  statements about that trace.
* A Go run-time panic (method call on a nil interface, slice bounds) is the
  result `Res.abort`.
-/

namespace Dusnet

/-! ## Data model -/

/-- A byte of a Go `[]byte`; no arithmetic is performed on bytes here. -/
abbrev Byte := Nat

/-- Identity of a connection object (the pointer inside a non-nil `connect.IConnection`). -/
abbrev ConnRef := Nat

/-- Identity of a handler object (`*baseHandler`, `*routerHandler`, a registered handler). -/
abbrev HandlerRef := Nat

/-- Line 13: `MaxReadBufLen = 1024`. -/
def MaxReadBufLen : Nat := 1024

/-- An argument handed to `fmt.Errorf`. -/
inductive FmtArg where
  | num (n : Nat)
  | conn (c : Option ConnRef)
  | handler (h : HandlerRef)
deriving DecidableEq, Repr

/-- A non-nil Go `error` value. The nil error is `none : Option Err`. -/
inductive Err where
  /-- The value built by `fmt.Errorf(format, args...)`. -/
  | errorf (format : String) (args : List FmtArg)
  /-- An error value produced by a collaborator (codec, connection, registered handler). -/
  | external (msg : String)
deriving DecidableEq, Repr

/-- The four header/body fields `packet.IPacket` exposes through `GetID`, `GetType`,
`GetBodyLen` and `GetData` (`Typ` is the value of `GetType`). -/
structure Packet where
  ID : Nat
  Typ : Nat
  BodyLen : Nat
  Data : List Byte
deriving DecidableEq, Repr

/-- A non-nil `zcodec.Icodec`: `Encode(IPacket) ([]byte, error)` and
`Decode([]byte) (IPacket, error)`. Both results of a call are kept, as in Go; a nil
`IPacket` is `none`. -/
structure Icodec where
  Encode : Packet → List Byte × Option Err
  Decode : List Byte → Option Packet × Option Err

/-- Lines 41-44: `baseHandler`. A nil interface in either field is `none`. -/
structure baseHandler where
  codec0 : Option Icodec
  conn : Option ConnRef

/-- Lines 60-62: `routerHandler` embeds `baseHandler` and adds no field. -/
abbrev routerHandler := baseHandler

/-- Lines 37-39: `builder` holds the handler under construction by reference. -/
structure builder where
  handler : HandlerRef
deriving DecidableEq, Repr

/-- A call this package makes to a collaborator, or a store into a handler field. -/
inductive Event where
  | alive (c : ConnRef)
  | getRemoteHost (c : ConnRef)
  | getRemotePort (c : ConnRef)
  | read (c : ConnRef) (buflen : Nat)
  | write (c : ConnRef) (bytes : List Byte)
  | defaultCodec
  | encode (codec : Icodec) (p : Packet)
  | decode (codec : Icodec) (bytes : List Byte)
  | setConn (h : HandlerRef) (c : Option ConnRef)
  | setCodec (h : HandlerRef) (c : Option Icodec)
  | handleMsg (h : HandlerRef) (p : Packet)
  | logError (format : String)
  | logInfo (format : String)
  | logDebug (format : String)

/-- The memory the collaborators can see: their own state `ext`, the handler heap and
the package-level registry `childHandlerMap` (declared in another file of the package). -/
structure Mem (σ : Type) where
  ext : σ
  heap : HandlerRef → baseHandler
  childHandlerMap : Nat → Option HandlerRef
  next : HandlerRef

/-- Memory together with the trace of calls made so far. -/
structure World (σ : Type) where
  mem : Mem σ
  trace : List Event

/-- What `Connection.Read(buf)` hands back: the bytes it stored at the start of `buf`,
and the two Go results `(n, err)`. -/
structure ReadResult where
  stored : List Byte
  n : Int
  err : Option Err
deriving DecidableEq, Repr

/-- Behaviour of the collaborators. Connection methods act on the collaborators' own
state; a registered handler's `HandleMsg` may act on the whole memory (it can reach its
own `conn` field and the registry). `Default` is `zcodec.Default()`. -/
structure Env (σ : Type) where
  Alive : ConnRef → σ → Bool × σ
  GetRemoteHost : ConnRef → σ → String × σ
  GetRemotePort : ConnRef → σ → Int × σ
  Read : ConnRef → List Byte → σ → ReadResult × σ
  Write : ConnRef → List Byte → σ → (Int × Option Err) × σ
  HandleMsg : HandlerRef → Packet → Mem σ → Option Err × Mem σ
  Default : Icodec

/-! ## Execution -/

/-- Result of running Go code: a returned value, or a run-time panic. -/
inductive Res (α : Type) where
  | ret (a : α)
  | abort
deriving DecidableEq, Repr

/-- A Go computation over the world. -/
def Go (σ α : Type) : Type := World σ → Res α × World σ

namespace Go

variable {σ α β : Type}

/-- Return a value. -/
def unit (a : α) : Go σ α := fun w => (Res.ret a, w)

/-- Sequencing; a panic stops the computation. -/
def andThen (m : Go σ α) (f : α → Go σ β) : Go σ β := fun w =>
  match m w with
  | (Res.ret a, w1) => f a w1
  | (Res.abort, w1) => (Res.abort, w1)

instance : Monad (Go σ) where
  pure := unit
  bind := andThen

/-- A run-time panic. -/
def crash : Go σ α := fun w => (Res.abort, w)

/-- Append one event to the trace. -/
def emit (e : Event) : Go σ Unit := fun w => (Res.ret (), { w with trace := w.trace ++ [e] })

/-- Load a handler object. -/
def load (h : HandlerRef) : Go σ baseHandler := fun w => (Res.ret (w.mem.heap h), w)

/-- Store a handler object. -/
def store (h : HandlerRef) (v : baseHandler) : Go σ Unit := fun w =>
  (Res.ret (), { w with mem := { w.mem with heap := Function.update w.mem.heap h v } })

/-- Run a collaborator that acts on its own state. -/
def ext (f : σ → α × σ) : Go σ α := fun w =>
  ((Res.ret (f w.mem.ext).1), { w with mem := { w.mem with ext := (f w.mem.ext).2 } })

/-- Run a collaborator that acts on the whole memory. -/
def onMem (f : Mem σ → α × Mem σ) : Go σ α := fun w =>
  ((Res.ret (f w.mem).1), { w with mem := (f w.mem).2 })

/-- Allocate a zero-valued handler object (`&routerHandler{}`). -/
def alloc : Go σ HandlerRef := fun w =>
  (Res.ret w.mem.next,
    { w with mem := { w.mem with
        heap := Function.update w.mem.heap w.mem.next { codec0 := none, conn := none },
        next := w.mem.next + 1 } })

/-- Read the registry `childHandlerMap[id]`. -/
def lookup (id : Nat) : Go σ (Option HandlerRef) := fun w =>
  (Res.ret (w.mem.childHandlerMap id), w)

end Go

open Go

variable {σ : Type}

/-- Go's `make([]byte, n)`: `n` zero bytes. -/
def makeBytes (n : Nat) : List Byte := List.replicate n 0

/-- The buffer after `Read` stored `stored` at its start: same length as before. -/
def overlay (buf stored : List Byte) : List Byte :=
  (stored ++ buf.drop stored.length).take buf.length

/-- Go's `buf[:i]` on a slice of capacity `buf.length`: panics unless `0 ≤ i ≤ cap`. -/
def slicePrefix (buf : List Byte) (i : Int) : Go σ (List Byte) :=
  if 0 ≤ i ∧ i ≤ (buf.length : Int) then pure (buf.take i.toNat) else crash

/-- `conn.Alive()`; a nil `conn` panics. -/
def connAlive (env : Env σ) : Option ConnRef → Go σ Bool
  | none => crash
  | some c => do emit (Event.alive c); ext (env.Alive c)

/-- `conn.GetRemoteHost()`; a nil `conn` panics. -/
def connGetRemoteHost (env : Env σ) : Option ConnRef → Go σ String
  | none => crash
  | some c => do emit (Event.getRemoteHost c); ext (env.GetRemoteHost c)

/-- `conn.GetRemotePort()`; a nil `conn` panics. -/
def connGetRemotePort (env : Env σ) : Option ConnRef → Go σ Int
  | none => crash
  | some c => do emit (Event.getRemotePort c); ext (env.GetRemotePort c)

/-- `conn.Read(buf)`; a nil `conn` panics. Returns the buffer after the call with `(n, err)`. -/
def connRead (env : Env σ) (buf : List Byte) : Option ConnRef → Go σ (List Byte × Int × Option Err)
  | none => crash
  | some c => do
    emit (Event.read c buf.length)
    let r ← ext (env.Read c buf)
    pure (overlay buf r.stored, r.n, r.err)

/-- `conn.Write(buf)`; a nil `conn` panics. -/
def connWrite (env : Env σ) (buf : List Byte) : Option ConnRef → Go σ (Int × Option Err)
  | none => crash
  | some c => do emit (Event.write c buf); ext (env.Write c buf)

/-- `codec.Encode(pkt)`; a nil `codec` panics. -/
def codecEncode (pkt : Packet) : Option Icodec → Go σ (List Byte × Option Err)
  | none => crash
  | some k => do emit (Event.encode k pkt); pure (k.Encode pkt)

/-- `codec.Decode(buf)`; a nil `codec` panics. -/
def codecDecode (buf : List Byte) : Option Icodec → Go σ (Option Packet × Option Err)
  | none => crash
  | some k => do emit (Event.decode k buf); pure (k.Decode buf)

/-- The call `zcodec.Default()`. The codec package is outside this file; the codec it
returns is the parameter `env.Default`. -/
def zcodecDefault (env : Env σ) : Go σ Icodec := do
  emit Event.defaultCodec
  pure env.Default

/-- Lines 118-120: `func (h *baseHandler) SetConn(conn)`. -/
def baseHandler.SetConn (h : HandlerRef) (conn : Option ConnRef) : Go σ Unit := do
  emit (Event.setConn h conn)
  let v ← load h
  store h { v with conn := conn }

/-- Lines 92-94: `func (h *baseHandler) BindConn(conn)`. -/
def baseHandler.BindConn (h : HandlerRef) (conn : Option ConnRef) : Go σ Unit := do
  emit (Event.setConn h conn)
  let v ← load h
  store h { v with conn := conn }

/-- Lines 96-98: `func (h *baseHandler) SetCodec(codec)`. -/
def baseHandler.SetCodec (h : HandlerRef) (codec : Option Icodec) : Go σ Unit := do
  emit (Event.setCodec h codec)
  let v ← load h
  store h { v with codec0 := codec }

/-- Lines 46-57: `func (h *baseHandler) write(pkt) error`. -/
def baseHandler.write (env : Env σ) (h : HandlerRef) (pkt : Packet) : Go σ (Option Err) := do
  if (← load h).codec0.isNone then
    let d ← zcodecDefault env
    let v ← load h
    store h { v with codec0 := some d }
  let (buf, err) ← codecEncode pkt (← load h).codec0
  if err.isSome then
    return err
  let (_, err) ← connWrite env buf (← load h).conn
  return err

/-- Modelled from the spec: the type of the values of `childHandlerMap` is declared in
another file of the package. Its `SetConn` sets the handler's bound connection,
overwriting the one it held (spec 4.4, step 5), which is what `baseHandler.SetConn` of
lines 118-120 does for every type embedding `baseHandler`. -/
def childSetConn (h : HandlerRef) (conn : Option ConnRef) : Go σ Unit :=
  baseHandler.SetConn h conn

/-- The registered handler's `h.HandleMsg(pkt)`: its body is outside this package's file
and is the parameter `env.HandleMsg`. -/
def childHandleMsg (env : Env σ) (h : HandlerRef) (pkt : Packet) : Go σ (Option Err) := do
  emit (Event.handleMsg h pkt)
  onMem (env.HandleMsg h pkt)

/-- Lines 64-90: `func (hr *routerHandler) HandleMsg0() error`. -/
def routerHandler.HandleMsg0 (env : Env σ) (hr : HandlerRef) : Go σ (Option Err) := do
  let dead ← (do
    if (← load hr).conn.isNone then pure true
    else do
      let a ← connAlive env (← load hr).conn
      pure (!a))
  if dead then
    emit (Event.logError "connection not alive with baseHandler[%+v]")
    return some (Err.errorf "connection[%+v] not alive with baseHandler[%+v]"
      [FmtArg.conn (← load hr).conn, FmtArg.handler hr])
  let _host ← connGetRemoteHost env (← load hr).conn
  let _port ← connGetRemotePort env (← load hr).conn
  let msgBuf := makeBytes MaxReadBufLen
  let (msgBuf, i, err) ← connRead env msgBuf (← load hr).conn
  if err.isSome then
    emit (Event.logError "Read msg error from %s,error:%+v")
    return err
  let actualMsgBuf ← slicePrefix msgBuf i
  emit (Event.logInfo "Receive msg[%s] from %s")
  let (pkt, err) ← codecDecode actualMsgBuf (← load hr).codec0
  if err.isSome then
    return err
  match pkt with
  | none => crash
  | some pkt =>
    emit (Event.logDebug "Receive packet[Head\x7bid:%d,type:%d,length:%d\x7d-Body\x7b%s\x7d] from %s")
    match (← lookup pkt.ID) with
    | some h =>
      childSetConn h (← load hr).conn
      childHandleMsg env h pkt
    | none =>
      return some (Err.errorf "no childHandler to handle this msg[type:%d,id:%d]"
        [FmtArg.num pkt.Typ, FmtArg.num pkt.ID])

/-- Lines 109-111: `func RouteBuilder() IBuilder`. -/
def RouteBuilder : Go σ builder := do
  let r ← alloc
  pure { handler := r }

/-- Lines 100-103: `func (b builder) Codec(c) IBuilder`. The handler is the
`*routerHandler` made by `RouteBuilder`, so `SetCodec` is `baseHandler.SetCodec`. -/
def builder.Codec (b : builder) (c : Option Icodec) : Go σ builder := do
  baseHandler.SetCodec b.handler c
  pure b

/-- Lines 113-116: `func (b builder) Conn(conn) IBuilder`. -/
def builder.Conn (b : builder) (conn : Option ConnRef) : Go σ builder := do
  baseHandler.SetConn b.handler conn
  pure b

/-- Lines 105-107: `func (b builder) Build() IRouteHandler`. -/
def builder.Build (b : builder) : Go σ HandlerRef :=
  pure b.handler

/-! ## Vocabulary for the statements -/

/-- The event is a `Connection.Read` call. -/
def Event.isRead : Event → Bool
  | Event.read _ _ => true
  | _ => false

/-- The event is a `Connection.Write` call. -/
def Event.isWrite : Event → Bool
  | Event.write _ _ => true
  | _ => false

/-- The event is a codec `Decode` call. -/
def Event.isDecode : Event → Bool
  | Event.decode _ _ => true
  | _ => false

/-- The event is a codec `Encode` call. -/
def Event.isEncode : Event → Bool
  | Event.encode _ _ => true
  | _ => false

/-- The event stores into a handler's `conn` field. -/
def Event.isSetConn : Event → Bool
  | Event.setConn _ _ => true
  | _ => false

/-- The event is a registered handler's `HandleMsg` call. -/
def Event.isHandleMsg : Event → Bool
  | Event.handleMsg _ _ => true
  | _ => false

/-- Collaborator state when `Read` is called: after `Alive`, `GetRemoteHost`, `GetRemotePort`. -/
def extBeforeRead (env : Env σ) (c : ConnRef) (s : σ) : σ :=
  (env.GetRemotePort c (env.GetRemoteHost c (env.Alive c s).2).2).2

/-- What the one `Read` of a cycle on connection `c` returns. -/
def readResult (env : Env σ) (c : ConnRef) (s : σ) : ReadResult :=
  (env.Read c (makeBytes MaxReadBufLen) (extBeforeRead env c s)).1

/-- Collaborator state after that `Read`. -/
def extAfterRead (env : Env σ) (c : ConnRef) (s : σ) : σ :=
  (env.Read c (makeBytes MaxReadBufLen) (extBeforeRead env c s)).2

/-- The 1024-byte buffer after that `Read`. -/
def bufAfterRead (env : Env σ) (c : ConnRef) (s : σ) : List Byte :=
  overlay (makeBytes MaxReadBufLen) (readResult env c s).stored

/-- The first `n` bytes of the buffer, `n` being the count `Read` returned. -/
def bytesRead (env : Env σ) (c : ConnRef) (s : σ) : List Byte :=
  (bufAfterRead env c s).take (readResult env c s).n.toNat

/-- The calls a cycle makes on a live connection up to and including `Read`. -/
def readTrace (c : ConnRef) : List Event :=
  [Event.alive c, Event.getRemoteHost c, Event.getRemotePort c, Event.read c MaxReadBufLen]

/-- Memory in which the registered handler `H` is invoked: the collaborators' state after
the read, and `H` rebound to `c`. -/
def memAtDispatch (env : Env σ) (m : Mem σ) (c : ConnRef) (H : HandlerRef) : Mem σ :=
  { m with
    ext := extAfterRead env c m.ext,
    heap := Function.update m.heap H { m.heap H with conn := some c } }

/-- Heap after `write` on `h` installed the default codec. -/
def heapWithDefault (env : Env σ) (m : Mem σ) (h : HandlerRef) : HandlerRef → baseHandler :=
  Function.update m.heap h { m.heap h with codec0 := some env.Default }

/-! ## Concrete collaborators used to instantiate the statements -/

/-- A small codec: three header bytes (id, type, body length) followed by the body. -/
def demoCodec : Icodec where
  Encode p :=
    if p.BodyLen = p.Data.length then ([p.ID, p.Typ, p.BodyLen] ++ p.Data, none)
    else ([], some (Err.external "encode: body length mismatch"))
  Decode b :=
    match b with
    | id :: ty :: len :: body =>
      if body.length = len then (some ⟨id, ty, len, body⟩, none)
      else (none, some (Err.external "decode: truncated body"))
    | _ => (none, some (Err.external "decode: short header"))

/-- Connection 0 is dead; 1 delivers a packet with id 7; 2 fails to read; 3 delivers a
short header; 4 delivers a packet with id 8; writes on connection 5 fail. The
collaborators' state counts the reads and writes performed. -/
def demoEnv : Env Nat where
  Alive c s := (c != 0, s)
  GetRemoteHost _ s := ("127.0.0.1", s)
  GetRemotePort c s := (9000 + (c : Int), s)
  Read c _ s :=
    match c with
    | 1 => ({ stored := [7, 2, 1, 65], n := 4, err := none }, s + 1)
    | 2 => ({ stored := [], n := 0, err := some (Err.external "EOF") }, s + 1)
    | 3 => ({ stored := [9, 2], n := 2, err := none }, s + 1)
    | 4 => ({ stored := [8, 2, 0], n := 3, err := none }, s + 1)
    | _ => ({ stored := [], n := 0, err := none }, s + 1)
  Write c b s :=
    if c = 5 then ((0, some (Err.external "broken pipe")), s)
    else (((b.length : Int), none), s + 1)
  HandleMsg _ _ m := (none, m)
  Default := demoCodec

/-- A world whose handler 0 has the given codec and connection, whose registry maps id 7
to handler 10, and whose other handler objects are zero-valued. -/
def demoWorld (codec : Option Icodec) (conn : Option ConnRef) : World Nat where
  mem :=
    { ext := 0
      heap := fun h => if h = 0 then { codec0 := codec, conn := conn }
        else { codec0 := none, conn := none }
      childHandlerMap := fun id => if id = 7 then some 10 else none
      next := 20 }
  trace := []

/-- Handler 0 has the codec and is bound to connection 1. -/
def hitWorld : World Nat := demoWorld (some demoCodec) (some 1)

/-- Handler 0 has the codec and is bound to connection 4. -/
def missWorld : World Nat := demoWorld (some demoCodec) (some 4)

/-- Handler 0 has the codec and is bound to connection 2, whose `Read` fails. -/
def readErrWorld : World Nat := demoWorld (some demoCodec) (some 2)

/-- Handler 0 has the codec and is bound to connection 3, which delivers a short header. -/
def decodeErrWorld : World Nat := demoWorld (some demoCodec) (some 3)

/-- The packet connection 1 delivers. -/
def demoPacket : Packet := { ID := 7, Typ := 2, BodyLen := 1, Data := [65] }

/-- A packet whose declared body length differs from its body: `demoCodec` cannot encode it. -/
def badPacket : Packet := { ID := 7, Typ := 2, BodyLen := 3, Data := [65] }

/-- Handler 0 has no codec and is bound to connection 1. -/
def noCodecWorld : World Nat := demoWorld none (some 1)

/-! ## Chained builder calls -/

/-- One call in a builder chain, with its argument (a nil argument is `none`). -/
inductive BuilderCall where
  | Codec (c : Option Icodec)
  | Conn (conn : Option ConnRef)

/-- Perform one call of the chain on the builder. -/
def BuilderCall.run (b : builder) : BuilderCall → Go σ builder
  | BuilderCall.Codec c => b.Codec c
  | BuilderCall.Conn conn => b.Conn conn

/-- The chain `b.call₁(..).call₂(..)...`: each call is made on the builder the previous
call returned. -/
def chain : List BuilderCall → builder → Go σ builder
  | [], b => pure b
  | call :: rest, b => do
    let b1 ← call.run b
    chain rest b1

/-- The expression `RouteBuilder().call₁(..)...callₙ(..).Build()`. -/
def buildWith (calls : List BuilderCall) : Go σ HandlerRef := do
  let b ← RouteBuilder
  let b ← chain calls b
  b.Build

/-- The argument of a `Codec` call. -/
def BuilderCall.codecArg : BuilderCall → Option (Option Icodec)
  | BuilderCall.Codec c => some c
  | BuilderCall.Conn _ => none

/-- The argument of a `Conn` call. -/
def BuilderCall.connArg : BuilderCall → Option (Option ConnRef)
  | BuilderCall.Codec _ => none
  | BuilderCall.Conn conn => some conn

/-- The argument of the last `Codec` call of the chain, `dflt` if there is none. -/
def lastCodecArg (calls : List BuilderCall) (dflt : Option Icodec) : Option Icodec :=
  (calls.filterMap BuilderCall.codecArg).getLast?.getD dflt

/-- The argument of the last `Conn` call of the chain, `dflt` if there is none. -/
def lastConnArg (calls : List BuilderCall) (dflt : Option ConnRef) : Option ConnRef :=
  (calls.filterMap BuilderCall.connArg).getLast?.getD dflt

/-- `RouteBuilder().Conn(c).Build().HandleMsg0()`: a cycle on a handler built without a
codec, bound to connection `c`. -/
def cycleWithoutCodec (env : Env σ) (c : ConnRef) : Go σ (Option Err) := do
  let b ← RouteBuilder
  let b ← b.Conn (some c)
  let hr ← b.Build
  routerHandler.HandleMsg0 env hr

/-- A world in which nothing has been allocated or bound yet. -/
def freshWorld : World Nat := demoWorld none none

/-- The world after `RouteBuilder().Conn(c).Build()` ran in `w`: a handler allocated at
`w.mem.next`, with no codec, bound to `c`. -/
def afterBuild (w : World σ) (c : ConnRef) : World σ where
  mem :=
    { w.mem with
      heap := Function.update w.mem.heap w.mem.next { codec0 := none, conn := some c }
      next := w.mem.next + 1 }
  trace := w.trace ++ [Event.setConn w.mem.next (some c)]

/-! ## Evaluation lemmas -/

namespace Go

variable {α β : Type}

@[simp] theorem run_pure (a : α) (w : World σ) : (pure a : Go σ α) w = (Res.ret a, w) := rfl

@[simp] theorem run_bind (m : Go σ α) (f : α → Go σ β) (w : World σ) :
    (m >>= f) w = andThen m f w := rfl

end Go

@[simp] theorem makeBytes_length (n : Nat) : (makeBytes n).length = n := by
  simp [makeBytes]

theorem overlay_length (buf stored : List Byte) : (overlay buf stored).length = buf.length := by
  simp only [overlay, List.length_take, List.length_append, List.length_drop]
  omega

theorem take_overlay (buf stored : List Byte) (n : Nat) (hn : n ≤ stored.length)
    (hlen : stored.length ≤ buf.length) : (overlay buf stored).take n = stored.take n := by
  have hmin : min n buf.length = n := Nat.min_eq_left (le_trans hn hlen)
  rw [overlay, List.take_take, hmin, List.take_append_of_le_length hn]

/-- When `Read` stored at least the `n` bytes it reports, the bytes read are those. -/
theorem bytesRead_eq (env : Env σ) (c : ConnRef) (s : σ)
    (hn : (readResult env c s).n.toNat ≤ (readResult env c s).stored.length)
    (hlen : (readResult env c s).stored.length ≤ MaxReadBufLen) :
    bytesRead env c s = (readResult env c s).stored.take (readResult env c s).n.toNat := by
  rw [bytesRead, bufAfterRead, take_overlay _ _ _ hn (by simpa using hlen)]

theorem bufAfterRead_length (env : Env σ) (c : ConnRef) (s : σ) :
    (bufAfterRead env c s).length = MaxReadBufLen := by
  simp [bufAfterRead, overlay_length]

/-- Cycle on a handler with no bound connection. -/
theorem HandleMsg0_nil_conn (env : Env σ) (hr : HandlerRef) (w : World σ)
    (hconn : (w.mem.heap hr).conn = none) :
    routerHandler.HandleMsg0 env hr w =
      (Res.ret (some (Err.errorf "connection[%+v] not alive with baseHandler[%+v]"
        [FmtArg.conn none, FmtArg.handler hr])),
       { w with trace := w.trace ++
          [Event.logError "connection not alive with baseHandler[%+v]"] }) := by
  simp [routerHandler.HandleMsg0, Go.andThen, Go.load, Go.emit, hconn]

/-- Cycle on a handler whose connection reports `Alive() == false`. -/
theorem HandleMsg0_not_alive (env : Env σ) (hr : HandlerRef) (w : World σ) (c : ConnRef)
    (hconn : (w.mem.heap hr).conn = some c) (halive : (env.Alive c w.mem.ext).1 = false) :
    routerHandler.HandleMsg0 env hr w =
      (Res.ret (some (Err.errorf "connection[%+v] not alive with baseHandler[%+v]"
        [FmtArg.conn (some c), FmtArg.handler hr])),
       { mem := { w.mem with ext := (env.Alive c w.mem.ext).2 },
         trace := w.trace ++ [Event.alive c,
          Event.logError "connection not alive with baseHandler[%+v]"] }) := by
  simp [routerHandler.HandleMsg0, Go.andThen, Go.load, Go.emit, Go.ext, connAlive, hconn, halive]

/-- Cycle whose `Read` returns an error. -/
theorem HandleMsg0_read_error (env : Env σ) (hr : HandlerRef) (w : World σ) (c : ConnRef)
    (e : Err)
    (hconn : (w.mem.heap hr).conn = some c) (halive : (env.Alive c w.mem.ext).1 = true)
    (herr : (readResult env c w.mem.ext).err = some e) :
    routerHandler.HandleMsg0 env hr w =
      (Res.ret (some e),
       { mem := { w.mem with ext := extAfterRead env c w.mem.ext },
         trace := w.trace ++ readTrace c ++
          [Event.logError "Read msg error from %s,error:%+v"] }) := by
  simp only [readResult, extBeforeRead] at herr
  simp [routerHandler.HandleMsg0, Go.andThen, Go.load, Go.emit, Go.ext, connAlive,
    connGetRemoteHost, connGetRemotePort, connRead, hconn, halive, herr, extAfterRead,
    extBeforeRead, readTrace]

/-- Cycle whose `Read` reports a count outside the buffer: the slice expression panics. -/
theorem HandleMsg0_slice_out_of_bounds (env : Env σ) (hr : HandlerRef) (w : World σ)
    (c : ConnRef)
    (hconn : (w.mem.heap hr).conn = some c) (halive : (env.Alive c w.mem.ext).1 = true)
    (herr : (readResult env c w.mem.ext).err = none)
    (hn : ¬ (0 ≤ (readResult env c w.mem.ext).n ∧
      (readResult env c w.mem.ext).n ≤ (MaxReadBufLen : Int))) :
    routerHandler.HandleMsg0 env hr w =
      (Res.abort,
       { mem := { w.mem with ext := extAfterRead env c w.mem.ext },
         trace := w.trace ++ readTrace c }) := by
  simp only [readResult, extBeforeRead] at herr hn
  simp [routerHandler.HandleMsg0, Go.andThen, Go.load, Go.emit, Go.ext, Go.crash, connAlive,
    connGetRemoteHost, connGetRemotePort, connRead, slicePrefix, overlay_length, hconn, halive,
    herr, hn, extAfterRead, extBeforeRead, readTrace]

/-- Cycle on a handler with no codec: the `Decode` call panics. -/
theorem HandleMsg0_nil_codec (env : Env σ) (hr : HandlerRef) (w : World σ) (c : ConnRef)
    (hconn : (w.mem.heap hr).conn = some c) (hcodec : (w.mem.heap hr).codec0 = none)
    (halive : (env.Alive c w.mem.ext).1 = true)
    (herr : (readResult env c w.mem.ext).err = none)
    (hn : 0 ≤ (readResult env c w.mem.ext).n ∧
      (readResult env c w.mem.ext).n ≤ (MaxReadBufLen : Int)) :
    routerHandler.HandleMsg0 env hr w =
      (Res.abort,
       { mem := { w.mem with ext := extAfterRead env c w.mem.ext },
         trace := w.trace ++ readTrace c ++ [Event.logInfo "Receive msg[%s] from %s"] }) := by
  simp only [readResult, extBeforeRead] at herr hn
  simp [routerHandler.HandleMsg0, Go.andThen, Go.load, Go.emit, Go.ext, Go.crash, connAlive,
    connGetRemoteHost, connGetRemotePort, connRead, codecDecode, slicePrefix, overlay_length,
    hconn, hcodec, halive, herr, hn, extAfterRead, extBeforeRead, readTrace]

/-- Cycle whose `Decode` returns an error. -/
theorem HandleMsg0_decode_error (env : Env σ) (hr : HandlerRef) (w : World σ) (c : ConnRef)
    (k : Icodec) (e : Err)
    (hconn : (w.mem.heap hr).conn = some c) (hcodec : (w.mem.heap hr).codec0 = some k)
    (halive : (env.Alive c w.mem.ext).1 = true)
    (herr : (readResult env c w.mem.ext).err = none)
    (hn : 0 ≤ (readResult env c w.mem.ext).n ∧
      (readResult env c w.mem.ext).n ≤ (MaxReadBufLen : Int))
    (hdec : (k.Decode (bytesRead env c w.mem.ext)).2 = some e) :
    routerHandler.HandleMsg0 env hr w =
      (Res.ret (some e),
       { mem := { w.mem with ext := extAfterRead env c w.mem.ext },
         trace := w.trace ++ readTrace c ++ [Event.logInfo "Receive msg[%s] from %s",
          Event.decode k (bytesRead env c w.mem.ext)] }) := by
  simp only [readResult, extBeforeRead, bytesRead, bufAfterRead] at herr hn hdec
  simp [routerHandler.HandleMsg0, Go.andThen, Go.load, Go.emit, Go.ext, Go.crash, connAlive,
    connGetRemoteHost, connGetRemotePort, connRead, codecDecode, slicePrefix, overlay_length,
    hconn, hcodec, halive, herr, hn, hdec, extAfterRead, extBeforeRead, readTrace, bytesRead,
    bufAfterRead, readResult]

/-- Cycle whose `Decode` returns a nil packet with a nil error: `pkt.GetID()` panics. -/
theorem HandleMsg0_nil_packet (env : Env σ) (hr : HandlerRef) (w : World σ) (c : ConnRef)
    (k : Icodec)
    (hconn : (w.mem.heap hr).conn = some c) (hcodec : (w.mem.heap hr).codec0 = some k)
    (halive : (env.Alive c w.mem.ext).1 = true)
    (herr : (readResult env c w.mem.ext).err = none)
    (hn : 0 ≤ (readResult env c w.mem.ext).n ∧
      (readResult env c w.mem.ext).n ≤ (MaxReadBufLen : Int))
    (hdec : k.Decode (bytesRead env c w.mem.ext) = (none, none)) :
    routerHandler.HandleMsg0 env hr w =
      (Res.abort,
       { mem := { w.mem with ext := extAfterRead env c w.mem.ext },
         trace := w.trace ++ readTrace c ++ [Event.logInfo "Receive msg[%s] from %s",
          Event.decode k (bytesRead env c w.mem.ext)] }) := by
  simp only [readResult, extBeforeRead, bytesRead, bufAfterRead] at herr hn hdec
  simp [routerHandler.HandleMsg0, Go.andThen, Go.load, Go.emit, Go.ext, Go.crash, connAlive,
    connGetRemoteHost, connGetRemotePort, connRead, codecDecode, slicePrefix, overlay_length,
    hconn, hcodec, halive, herr, hn, hdec, extAfterRead, extBeforeRead, readTrace, bytesRead,
    bufAfterRead, readResult]

/-- Cycle whose decoded packet has no registry entry. -/
theorem HandleMsg0_miss (env : Env σ) (hr : HandlerRef) (w : World σ) (c : ConnRef)
    (k : Icodec) (p : Packet)
    (hconn : (w.mem.heap hr).conn = some c) (hcodec : (w.mem.heap hr).codec0 = some k)
    (halive : (env.Alive c w.mem.ext).1 = true)
    (herr : (readResult env c w.mem.ext).err = none)
    (hn : 0 ≤ (readResult env c w.mem.ext).n ∧
      (readResult env c w.mem.ext).n ≤ (MaxReadBufLen : Int))
    (hdec : k.Decode (bytesRead env c w.mem.ext) = (some p, none))
    (hreg : w.mem.childHandlerMap p.ID = none) :
    routerHandler.HandleMsg0 env hr w =
      (Res.ret (some (Err.errorf "no childHandler to handle this msg[type:%d,id:%d]"
        [FmtArg.num p.Typ, FmtArg.num p.ID])),
       { mem := { w.mem with ext := extAfterRead env c w.mem.ext },
         trace := w.trace ++ readTrace c ++ [Event.logInfo "Receive msg[%s] from %s",
          Event.decode k (bytesRead env c w.mem.ext),
          Event.logDebug
            "Receive packet[Head\x7bid:%d,type:%d,length:%d\x7d-Body\x7b%s\x7d] from %s"] }) := by
  simp only [readResult, extBeforeRead, bytesRead, bufAfterRead] at herr hn hdec
  simp [routerHandler.HandleMsg0, Go.andThen, Go.load, Go.emit, Go.ext, Go.crash, Go.lookup,
    connAlive, connGetRemoteHost, connGetRemotePort, connRead, codecDecode, slicePrefix,
    overlay_length, hconn, hcodec, halive, herr, hn, hdec, hreg, extAfterRead, extBeforeRead,
    readTrace, bytesRead, bufAfterRead, readResult]

/-- Cycle whose decoded packet has the registry entry `H`. -/
theorem HandleMsg0_hit (env : Env σ) (hr : HandlerRef) (w : World σ) (c : ConnRef)
    (k : Icodec) (p : Packet) (H : HandlerRef)
    (hconn : (w.mem.heap hr).conn = some c) (hcodec : (w.mem.heap hr).codec0 = some k)
    (halive : (env.Alive c w.mem.ext).1 = true)
    (herr : (readResult env c w.mem.ext).err = none)
    (hn : 0 ≤ (readResult env c w.mem.ext).n ∧
      (readResult env c w.mem.ext).n ≤ (MaxReadBufLen : Int))
    (hdec : k.Decode (bytesRead env c w.mem.ext) = (some p, none))
    (hreg : w.mem.childHandlerMap p.ID = some H) :
    routerHandler.HandleMsg0 env hr w =
      (Res.ret (env.HandleMsg H p (memAtDispatch env w.mem c H)).1,
       { mem := (env.HandleMsg H p (memAtDispatch env w.mem c H)).2,
         trace := w.trace ++ readTrace c ++ [Event.logInfo "Receive msg[%s] from %s",
          Event.decode k (bytesRead env c w.mem.ext),
          Event.logDebug "Receive packet[Head\x7bid:%d,type:%d,length:%d\x7d-Body\x7b%s\x7d] from %s",
          Event.setConn H (some c), Event.handleMsg H p] }) := by
  simp only [readResult, extBeforeRead, bytesRead, bufAfterRead] at herr hn hdec
  simp [routerHandler.HandleMsg0, Go.andThen, Go.load, Go.emit, Go.ext, Go.crash, Go.lookup,
    Go.store, Go.onMem, connAlive, connGetRemoteHost, connGetRemotePort, connRead, codecDecode,
    slicePrefix, overlay_length, childSetConn, baseHandler.SetConn, childHandleMsg, hconn, hcodec, halive,
    herr, hn, hdec, hreg, extAfterRead, extBeforeRead, readTrace, bytesRead, bufAfterRead,
    readResult, memAtDispatch]

/-- `write` with a codec set, `Encode` failing. -/
theorem write_encode_error (env : Env σ) (h : HandlerRef) (pkt : Packet) (w : World σ)
    (k : Icodec) (e : Err)
    (hcodec : (w.mem.heap h).codec0 = some k) (henc : (k.Encode pkt).2 = some e) :
    baseHandler.write env h pkt w =
      (Res.ret (some e), { w with trace := w.trace ++ [Event.encode k pkt] }) := by
  simp [baseHandler.write, Go.andThen, Go.load, Go.emit, codecEncode, hcodec, henc]

/-- `write` with a codec set, `Encode` succeeding, no bound connection. -/
theorem write_nil_conn (env : Env σ) (h : HandlerRef) (pkt : Packet) (w : World σ)
    (k : Icodec)
    (hcodec : (w.mem.heap h).codec0 = some k) (hconn : (w.mem.heap h).conn = none)
    (henc : (k.Encode pkt).2 = none) :
    baseHandler.write env h pkt w =
      (Res.abort, { w with trace := w.trace ++ [Event.encode k pkt] }) := by
  simp [baseHandler.write, Go.andThen, Go.load, Go.emit, Go.crash, codecEncode, connWrite,
    hcodec, hconn, henc]

/-- `write` with a codec set, `Encode` succeeding, a bound connection. -/
theorem write_sent (env : Env σ) (h : HandlerRef) (pkt : Packet) (w : World σ)
    (k : Icodec) (c : ConnRef)
    (hcodec : (w.mem.heap h).codec0 = some k) (hconn : (w.mem.heap h).conn = some c)
    (henc : (k.Encode pkt).2 = none) :
    baseHandler.write env h pkt w =
      (Res.ret (env.Write c (k.Encode pkt).1 w.mem.ext).1.2,
       { mem := { w.mem with ext := (env.Write c (k.Encode pkt).1 w.mem.ext).2 },
         trace := w.trace ++ [Event.encode k pkt, Event.write c (k.Encode pkt).1] }) := by
  simp [baseHandler.write, Go.andThen, Go.load, Go.emit, Go.ext, codecEncode, connWrite,
    hcodec, hconn, henc]

/-- `write` with no codec set, the default codec's `Encode` failing. -/
theorem write_default_encode_error (env : Env σ) (h : HandlerRef) (pkt : Packet)
    (w : World σ) (e : Err)
    (hcodec : (w.mem.heap h).codec0 = none) (henc : (env.Default.Encode pkt).2 = some e) :
    baseHandler.write env h pkt w =
      (Res.ret (some e),
       { mem := { w.mem with heap := heapWithDefault env w.mem h },
         trace := w.trace ++ [Event.defaultCodec, Event.encode env.Default pkt] }) := by
  simp [baseHandler.write, Go.andThen, Go.load, Go.emit, Go.store, codecEncode, zcodecDefault,
    heapWithDefault, hcodec, henc]

/-- `write` with no codec set, the default `Encode` succeeding, no bound connection. -/
theorem write_default_nil_conn (env : Env σ) (h : HandlerRef) (pkt : Packet) (w : World σ)
    (hcodec : (w.mem.heap h).codec0 = none) (hconn : (w.mem.heap h).conn = none)
    (henc : (env.Default.Encode pkt).2 = none) :
    baseHandler.write env h pkt w =
      (Res.abort,
       { mem := { w.mem with heap := heapWithDefault env w.mem h },
         trace := w.trace ++ [Event.defaultCodec, Event.encode env.Default pkt] }) := by
  simp [baseHandler.write, Go.andThen, Go.load, Go.emit, Go.store, Go.crash, codecEncode,
    connWrite, zcodecDefault, heapWithDefault, hcodec, hconn, henc]

/-- `write` with no codec set, the default `Encode` succeeding, a bound connection. -/
theorem write_default_sent (env : Env σ) (h : HandlerRef) (pkt : Packet) (w : World σ)
    (c : ConnRef)
    (hcodec : (w.mem.heap h).codec0 = none) (hconn : (w.mem.heap h).conn = some c)
    (henc : (env.Default.Encode pkt).2 = none) :
    baseHandler.write env h pkt w =
      (Res.ret (env.Write c (env.Default.Encode pkt).1 w.mem.ext).1.2,
       { mem := { w.mem with
            ext := (env.Write c (env.Default.Encode pkt).1 w.mem.ext).2,
            heap := heapWithDefault env w.mem h },
         trace := w.trace ++ [Event.defaultCodec, Event.encode env.Default pkt,
          Event.write c (env.Default.Encode pkt).1] }) := by
  simp [baseHandler.write, Go.andThen, Go.load, Go.emit, Go.store, Go.ext, codecEncode,
    connWrite, zcodecDefault, heapWithDefault, hcodec, hconn, henc]

/-! ## The read-decode-dispatch cycle -/

/-- C2 (liveness check): when the bound connection is nil, or reports `Alive() == false`,
`HandleMsg0` returns the non-nil connection-not-alive error; none of the calls it made is a
`Read`, a `Write`, a `Decode`, a rebind or a `HandleMsg`, and no handler object and no
registry entry is changed. -/
theorem C2_liveness_check (env : Env σ) (hr : HandlerRef) (w : World σ)
    (hdead : (w.mem.heap hr).conn = none ∨
      ∃ c, (w.mem.heap hr).conn = some c ∧ (env.Alive c w.mem.ext).1 = false) :
    (routerHandler.HandleMsg0 env hr w).1 =
        Res.ret (some (Err.errorf "connection[%+v] not alive with baseHandler[%+v]"
          [FmtArg.conn (w.mem.heap hr).conn, FmtArg.handler hr])) ∧
    (∃ l, (routerHandler.HandleMsg0 env hr w).2.trace = w.trace ++ l ∧
      ∀ ev ∈ l, ev.isRead = false ∧ ev.isWrite = false ∧ ev.isDecode = false ∧
        ev.isSetConn = false ∧ ev.isHandleMsg = false) ∧
    (routerHandler.HandleMsg0 env hr w).2.mem.heap = w.mem.heap ∧
    (routerHandler.HandleMsg0 env hr w).2.mem.childHandlerMap = w.mem.childHandlerMap := by
  rcases hdead with hnil | ⟨c, hconn, halive⟩
  · rw [HandleMsg0_nil_conn env hr w hnil, hnil]
    refine ⟨rfl, ⟨_, rfl, ?_⟩, rfl, rfl⟩
    intro ev hev
    simp only [List.mem_singleton] at hev
    subst hev
    simp [Event.isRead, Event.isWrite, Event.isDecode, Event.isSetConn, Event.isHandleMsg]
  · rw [HandleMsg0_not_alive env hr w c hconn halive, hconn]
    refine ⟨rfl, ⟨_, rfl, ?_⟩, rfl, rfl⟩
    intro ev hev
    simp only [List.mem_cons, List.mem_singleton, List.not_mem_nil, or_false] at hev
    rcases hev with hev | hev <;> subst hev <;>
      simp [Event.isRead, Event.isWrite, Event.isDecode, Event.isSetConn, Event.isHandleMsg]

/-- C2 at a handler with no connection and at a handler bound to the dead connection 0. -/
theorem C2_liveness_check_witness :
    ((demoWorld (some demoCodec) none).mem.heap 0).conn = none ∧
    (routerHandler.HandleMsg0 demoEnv 0 (demoWorld (some demoCodec) none)).1 =
        Res.ret (some (Err.errorf "connection[%+v] not alive with baseHandler[%+v]"
          [FmtArg.conn none, FmtArg.handler 0])) ∧
    (demoEnv.Alive 0 0).1 = false ∧
    (routerHandler.HandleMsg0 demoEnv 0 (demoWorld (some demoCodec) (some 0))).1 =
        Res.ret (some (Err.errorf "connection[%+v] not alive with baseHandler[%+v]"
          [FmtArg.conn (some 0), FmtArg.handler 0])) :=
  ⟨rfl, (C2_liveness_check demoEnv 0 (demoWorld (some demoCodec) none) (Or.inl rfl)).1,
    rfl, (C2_liveness_check demoEnv 0 (demoWorld (some demoCodec) (some 0))
      (Or.inr ⟨0, rfl, rfl⟩)).1⟩

/-- C1 (registry hit): with a live bound connection `c` and a codec `k`, when the one `Read`
succeeds with a count inside the buffer and `k` decodes the bytes read into `p` whose ID has
the registry entry `H`, `HandleMsg0` returns exactly what `H.HandleMsg(p)` returns; that call
runs in the memory where `H.conn` is `c` (whatever it was before) and every other handler
object is as it was; and after the read and decode, the calls made are, in order, the
rebind of `H` and one `HandleMsg` of `H` with `p`. -/
theorem C1_registry_hit (env : Env σ) (hr : HandlerRef) (w : World σ) (c : ConnRef)
    (k : Icodec) (p : Packet) (H : HandlerRef)
    (hconn : (w.mem.heap hr).conn = some c) (hcodec : (w.mem.heap hr).codec0 = some k)
    (halive : (env.Alive c w.mem.ext).1 = true)
    (herr : (readResult env c w.mem.ext).err = none)
    (hn : 0 ≤ (readResult env c w.mem.ext).n ∧
      (readResult env c w.mem.ext).n ≤ (MaxReadBufLen : Int))
    (hdec : k.Decode (bytesRead env c w.mem.ext) = (some p, none))
    (hreg : w.mem.childHandlerMap p.ID = some H) :
    (routerHandler.HandleMsg0 env hr w).1 =
        Res.ret (env.HandleMsg H p (memAtDispatch env w.mem c H)).1 ∧
    (routerHandler.HandleMsg0 env hr w).2.mem =
        (env.HandleMsg H p (memAtDispatch env w.mem c H)).2 ∧
    ((memAtDispatch env w.mem c H).heap H).conn = some c ∧
    ((memAtDispatch env w.mem c H).heap H).codec0 = (w.mem.heap H).codec0 ∧
    (∀ h, h ≠ H → (memAtDispatch env w.mem c H).heap h = w.mem.heap h) ∧
    (memAtDispatch env w.mem c H).childHandlerMap = w.mem.childHandlerMap ∧
    (routerHandler.HandleMsg0 env hr w).2.trace =
        w.trace ++ readTrace c ++ [Event.logInfo "Receive msg[%s] from %s",
          Event.decode k (bytesRead env c w.mem.ext),
          Event.logDebug "Receive packet[Head\x7bid:%d,type:%d,length:%d\x7d-Body\x7b%s\x7d] from %s",
          Event.setConn H (some c), Event.handleMsg H p] ∧
    ((routerHandler.HandleMsg0 env hr w).2.trace.drop w.trace.length).filter
        Event.isHandleMsg = [Event.handleMsg H p] ∧
    ((routerHandler.HandleMsg0 env hr w).2.trace.drop w.trace.length).filter
        Event.isSetConn = [Event.setConn H (some c)] := by
  rw [HandleMsg0_hit env hr w c k p H hconn hcodec halive herr hn hdec hreg]
  refine ⟨rfl, rfl, ?_, ?_, ?_, rfl, rfl, ?_, ?_⟩
  · simp [memAtDispatch]
  · simp [memAtDispatch]
  · intro h hne
    simp [memAtDispatch, Function.update_noteq hne]
  · simp [readTrace, Event.isHandleMsg]
  · simp [readTrace, Event.isSetConn]

/-- C1 at connection 1, which delivers the packet with id 7, registered to handler 10. -/
theorem C1_registry_hit_witness :
    (hitWorld.mem.heap 0).conn = some 1 ∧
    (demoEnv.Alive 1 hitWorld.mem.ext).1 = true ∧
    (readResult demoEnv 1 hitWorld.mem.ext).err = none ∧
    demoCodec.Decode (bytesRead demoEnv 1 hitWorld.mem.ext) = (some demoPacket, none) ∧
    hitWorld.mem.childHandlerMap demoPacket.ID = some 10 ∧
    (routerHandler.HandleMsg0 demoEnv 0 hitWorld).1 =
      Res.ret (demoEnv.HandleMsg 10 demoPacket (memAtDispatch demoEnv hitWorld.mem 1 10)).1 :=
  have hdec : demoCodec.Decode (bytesRead demoEnv 1 hitWorld.mem.ext) =
      (some demoPacket, none) := by
    rw [bytesRead_eq demoEnv 1 hitWorld.mem.ext (by decide) (by decide)]; rfl
  ⟨rfl, rfl, rfl, hdec, rfl,
    (C1_registry_hit demoEnv 0 hitWorld 1 demoCodec demoPacket 10
      rfl rfl rfl rfl (by simp [readResult, demoEnv, MaxReadBufLen]) hdec rfl).1⟩

/-- C3 (registry miss): with a live bound connection, when the read and the decode succeed
and the packet's ID is not a key of the registry, `HandleMsg0` returns the non-nil error
built from the packet's Type and ID; the calls made end with the decode and its log line, so
no `HandleMsg` is invoked and no handler is rebound; no handler object is changed. -/
theorem C3_registry_miss (env : Env σ) (hr : HandlerRef) (w : World σ) (c : ConnRef)
    (k : Icodec) (p : Packet)
    (hconn : (w.mem.heap hr).conn = some c) (hcodec : (w.mem.heap hr).codec0 = some k)
    (halive : (env.Alive c w.mem.ext).1 = true)
    (herr : (readResult env c w.mem.ext).err = none)
    (hn : 0 ≤ (readResult env c w.mem.ext).n ∧
      (readResult env c w.mem.ext).n ≤ (MaxReadBufLen : Int))
    (hdec : k.Decode (bytesRead env c w.mem.ext) = (some p, none))
    (hreg : w.mem.childHandlerMap p.ID = none) :
    (routerHandler.HandleMsg0 env hr w).1 =
        Res.ret (some (Err.errorf "no childHandler to handle this msg[type:%d,id:%d]"
          [FmtArg.num p.Typ, FmtArg.num p.ID])) ∧
    (routerHandler.HandleMsg0 env hr w).2.trace =
        w.trace ++ readTrace c ++ [Event.logInfo "Receive msg[%s] from %s",
          Event.decode k (bytesRead env c w.mem.ext),
          Event.logDebug
            "Receive packet[Head\x7bid:%d,type:%d,length:%d\x7d-Body\x7b%s\x7d] from %s"] ∧
    (∀ ev ∈ (routerHandler.HandleMsg0 env hr w).2.trace.drop w.trace.length,
      ev.isHandleMsg = false ∧ ev.isSetConn = false) ∧
    (routerHandler.HandleMsg0 env hr w).2.mem.heap = w.mem.heap ∧
    (routerHandler.HandleMsg0 env hr w).2.mem.childHandlerMap = w.mem.childHandlerMap := by
  rw [HandleMsg0_miss env hr w c k p hconn hcodec halive herr hn hdec hreg]
  refine ⟨rfl, rfl, ?_, rfl, rfl⟩
  intro ev hev
  simp only [readTrace, List.append_assoc, List.drop_left, List.cons_append, List.nil_append,
    List.mem_cons, List.mem_singleton, List.not_mem_nil, or_false] at hev
  rcases hev with hev | hev | hev | hev | hev | hev | hev <;> subst hev <;>
    simp [Event.isHandleMsg, Event.isSetConn]

/-- C3 at connection 4, which delivers a packet with the unregistered id 8. -/
theorem C3_registry_miss_witness :
    (missWorld.mem.heap 0).conn = some 4 ∧
    (demoEnv.Alive 4 missWorld.mem.ext).1 = true ∧
    (readResult demoEnv 4 missWorld.mem.ext).err = none ∧
    demoCodec.Decode (bytesRead demoEnv 4 missWorld.mem.ext) = (some ⟨8, 2, 0, []⟩, none) ∧
    missWorld.mem.childHandlerMap 8 = none ∧
    (routerHandler.HandleMsg0 demoEnv 0 missWorld).1 =
      Res.ret (some (Err.errorf "no childHandler to handle this msg[type:%d,id:%d]"
        [FmtArg.num 2, FmtArg.num 8])) :=
  have hdec : demoCodec.Decode (bytesRead demoEnv 4 missWorld.mem.ext) =
      (some ⟨8, 2, 0, []⟩, none) := by
    rw [bytesRead_eq demoEnv 4 missWorld.mem.ext (by decide) (by decide)]; rfl
  ⟨rfl, rfl, rfl, hdec, rfl,
    (C3_registry_miss demoEnv 0 missWorld 4 demoCodec ⟨8, 2, 0, []⟩
      rfl rfl rfl rfl (by simp [readResult, demoEnv, MaxReadBufLen]) hdec rfl).1⟩

/-- C4 (fail-fast on read and decode errors): with a live bound connection `c` and a codec
`k`, if `Read` returns the error `e` then `HandleMsg0` returns exactly `e` and the calls it
made end with the `Read` and its log line (no `Decode`); if `Read` succeeds with a count
inside the buffer and `Decode` returns the error `e` then `HandleMsg0` returns exactly `e`
and the calls end with the `Decode`. In both cases no handler object and no registry
entry is changed, nothing is written, and the collaborators are left as the `Read` left
them. -/
theorem C4_fail_fast (env : Env σ) (hr : HandlerRef) (w : World σ) (c : ConnRef) (k : Icodec)
    (hconn : (w.mem.heap hr).conn = some c) (hcodec : (w.mem.heap hr).codec0 = some k)
    (halive : (env.Alive c w.mem.ext).1 = true) :
    (∀ e, (readResult env c w.mem.ext).err = some e →
      (routerHandler.HandleMsg0 env hr w).1 = Res.ret (some e) ∧
      (routerHandler.HandleMsg0 env hr w).2.trace =
        w.trace ++ readTrace c ++ [Event.logError "Read msg error from %s,error:%+v"] ∧
      (routerHandler.HandleMsg0 env hr w).2.mem =
        { w.mem with ext := extAfterRead env c w.mem.ext }) ∧
    (∀ e, (readResult env c w.mem.ext).err = none →
      (0 ≤ (readResult env c w.mem.ext).n ∧
        (readResult env c w.mem.ext).n ≤ (MaxReadBufLen : Int)) →
      (k.Decode (bytesRead env c w.mem.ext)).2 = some e →
      (routerHandler.HandleMsg0 env hr w).1 = Res.ret (some e) ∧
      (routerHandler.HandleMsg0 env hr w).2.trace =
        w.trace ++ readTrace c ++ [Event.logInfo "Receive msg[%s] from %s",
          Event.decode k (bytesRead env c w.mem.ext)] ∧
      (routerHandler.HandleMsg0 env hr w).2.mem =
        { w.mem with ext := extAfterRead env c w.mem.ext }) := by
  constructor
  · intro e herr
    rw [HandleMsg0_read_error env hr w c e hconn halive herr]
    exact ⟨rfl, rfl, rfl⟩
  · intro e herr hn hdec
    rw [HandleMsg0_decode_error env hr w c k e hconn hcodec halive herr hn hdec]
    exact ⟨rfl, rfl, rfl⟩

/-- C4 at connection 2, whose `Read` fails, and at connection 3, whose two bytes do not
decode. -/
theorem C4_fail_fast_witness :
    ((readResult demoEnv 2 readErrWorld.mem.ext).err = some (Err.external "EOF") ∧
      (routerHandler.HandleMsg0 demoEnv 0 readErrWorld).1 =
        Res.ret (some (Err.external "EOF")) ∧
      (routerHandler.HandleMsg0 demoEnv 0 readErrWorld).2.trace =
        readErrWorld.trace ++ readTrace 2 ++
          [Event.logError "Read msg error from %s,error:%+v"]) ∧
    ((readResult demoEnv 3 decodeErrWorld.mem.ext).err = none ∧
      (demoCodec.Decode (bytesRead demoEnv 3 decodeErrWorld.mem.ext)).2 =
        some (Err.external "decode: short header") ∧
      (routerHandler.HandleMsg0 demoEnv 0 decodeErrWorld).1 =
        Res.ret (some (Err.external "decode: short header"))) :=
  have hdec : (demoCodec.Decode (bytesRead demoEnv 3 decodeErrWorld.mem.ext)).2 =
      some (Err.external "decode: short header") := by
    rw [bytesRead_eq demoEnv 3 decodeErrWorld.mem.ext (by decide) (by decide)]; rfl
  ⟨⟨rfl,
      ((C4_fail_fast demoEnv 0 readErrWorld 2 demoCodec rfl rfl rfl).1 _ rfl).1,
      ((C4_fail_fast demoEnv 0 readErrWorld 2 demoCodec rfl rfl rfl).1 _ rfl).2.1⟩,
    ⟨rfl, hdec,
      ((C4_fail_fast demoEnv 0 decodeErrWorld 3 demoCodec rfl rfl rfl).2 _ rfl
        (by simp [readResult, demoEnv, MaxReadBufLen]) hdec).1⟩⟩

/-- Every cycle on a live connection: what was appended to the trace starts with the calls
up to the one `Read`, and the rest holds no `Read`; with a codec set and a successful read
inside the buffer, the rest holds one `Decode`, of the bytes read. -/
theorem HandleMsg0_live_trace (env : Env σ) (hr : HandlerRef) (w : World σ) (c : ConnRef)
    (hconn : (w.mem.heap hr).conn = some c) (halive : (env.Alive c w.mem.ext).1 = true) :
    ∃ rest, (routerHandler.HandleMsg0 env hr w).2.trace = w.trace ++ (readTrace c ++ rest) ∧
      rest.filter Event.isRead = [] ∧
      ∀ k, (w.mem.heap hr).codec0 = some k → (readResult env c w.mem.ext).err = none →
        (0 ≤ (readResult env c w.mem.ext).n ∧
          (readResult env c w.mem.ext).n ≤ (MaxReadBufLen : Int)) →
        rest.filter Event.isDecode = [Event.decode k (bytesRead env c w.mem.ext)] := by
  cases herr : (readResult env c w.mem.ext).err with
  | some e =>
    refine ⟨[Event.logError "Read msg error from %s,error:%+v"], ?_, ?_, ?_⟩
    · rw [HandleMsg0_read_error env hr w c e hconn halive herr, List.append_assoc]
    · simp [Event.isRead]
    · intro k _ h
      simp at h
  | none =>
    by_cases hn : 0 ≤ (readResult env c w.mem.ext).n ∧
        (readResult env c w.mem.ext).n ≤ (MaxReadBufLen : Int)
    swap
    · refine ⟨[], ?_, ?_, ?_⟩
      · rw [HandleMsg0_slice_out_of_bounds env hr w c hconn halive herr hn]; simp
      · rfl
      · intro k _ _ h
        exact absurd h hn
    cases hcodec : (w.mem.heap hr).codec0 with
    | none =>
      refine ⟨[Event.logInfo "Receive msg[%s] from %s"], ?_, ?_, ?_⟩
      · rw [HandleMsg0_nil_codec env hr w c hconn hcodec halive herr hn, List.append_assoc]
      · simp [Event.isRead]
      · intro k h
        simp at h
    | some k =>
      rcases hdec : k.Decode (bytesRead env c w.mem.ext) with ⟨pkt, derr⟩
      cases derr with
      | some e =>
        have hdec2 : (k.Decode (bytesRead env c w.mem.ext)).2 = some e := by rw [hdec]
        refine ⟨[Event.logInfo "Receive msg[%s] from %s",
          Event.decode k (bytesRead env c w.mem.ext)], ?_, ?_, ?_⟩
        · rw [HandleMsg0_decode_error env hr w c k e hconn hcodec halive herr hn hdec2,
            List.append_assoc]
        · simp [Event.isRead]
        · intro k2 hk _ _
          cases hk
          simp [Event.isDecode]
      | none =>
        cases pkt with
        | none =>
          refine ⟨[Event.logInfo "Receive msg[%s] from %s",
            Event.decode k (bytesRead env c w.mem.ext)], ?_, ?_, ?_⟩
          · rw [HandleMsg0_nil_packet env hr w c k hconn hcodec halive herr hn hdec,
              List.append_assoc]
          · simp [Event.isRead]
          · intro k2 hk _ _
            cases hk
            simp [Event.isDecode]
        | some p =>
          cases hreg : w.mem.childHandlerMap p.ID with
          | none =>
            refine ⟨[Event.logInfo "Receive msg[%s] from %s",
              Event.decode k (bytesRead env c w.mem.ext),
              Event.logDebug
                "Receive packet[Head\x7bid:%d,type:%d,length:%d\x7d-Body\x7b%s\x7d] from %s"],
              ?_, ?_, ?_⟩
            · rw [HandleMsg0_miss env hr w c k p hconn hcodec halive herr hn hdec hreg,
                List.append_assoc]
            · simp [Event.isRead]
            · intro k2 hk _ _
              cases hk
              simp [Event.isDecode]
          | some H =>
            refine ⟨[Event.logInfo "Receive msg[%s] from %s",
              Event.decode k (bytesRead env c w.mem.ext),
              Event.logDebug
                "Receive packet[Head\x7bid:%d,type:%d,length:%d\x7d-Body\x7b%s\x7d] from %s",
              Event.setConn H (some c), Event.handleMsg H p], ?_, ?_, ?_⟩
            · rw [HandleMsg0_hit env hr w c k p H hconn hcodec halive herr hn hdec hreg,
                List.append_assoc]
            · simp [Event.isRead]
            · intro k2 hk _ _
              cases hk
              simp [Event.isDecode]

/-- Bounded read and truncation: a cycle on a live connection `c` invokes `Read` once, with
a buffer of length `MaxReadBufLen = 1024`, whatever the handler's codec field holds. When
the handler has a codec `k` and `Read` returns `n` with no error and `0 ≤ n ≤ 1024`, the
slice expression does not panic, and the one `Decode` call receives the first `n` bytes of
the 1024-byte buffer, a slice of length `n`. -/
theorem HandleMsg0_bounded_read (env : Env σ) (hr : HandlerRef) (w : World σ) (c : ConnRef)
    (hconn : (w.mem.heap hr).conn = some c) (halive : (env.Alive c w.mem.ext).1 = true) :
    MaxReadBufLen = 1024 ∧
    (∃ l, (routerHandler.HandleMsg0 env hr w).2.trace = w.trace ++ l ∧
      l.filter Event.isRead = [Event.read c 1024]) ∧
    (∀ k, (w.mem.heap hr).codec0 = some k → (readResult env c w.mem.ext).err = none →
      (0 ≤ (readResult env c w.mem.ext).n ∧ (readResult env c w.mem.ext).n ≤ 1024) →
      (∀ w1 : World σ, slicePrefix (bufAfterRead env c w.mem.ext)
          (readResult env c w.mem.ext).n w1 = (Res.ret (bytesRead env c w.mem.ext), w1)) ∧
      (bufAfterRead env c w.mem.ext).length = 1024 ∧
      bytesRead env c w.mem.ext =
        (bufAfterRead env c w.mem.ext).take (readResult env c w.mem.ext).n.toNat ∧
      ((bytesRead env c w.mem.ext).length : Int) = (readResult env c w.mem.ext).n ∧
      ∃ l, (routerHandler.HandleMsg0 env hr w).2.trace = w.trace ++ l ∧
        l.filter Event.isDecode = [Event.decode k (bytesRead env c w.mem.ext)]) := by
  obtain ⟨rest, htrace, hread, hdecode⟩ := HandleMsg0_live_trace env hr w c hconn halive
  have hmax : (MaxReadBufLen : Int) = 1024 := by simp [MaxReadBufLen]
  refine ⟨rfl, ⟨readTrace c ++ rest, htrace, ?_⟩, ?_⟩
  · rw [List.filter_append, hread]
    simp [readTrace, Event.isRead, MaxReadBufLen]
  · intro k hcodec herr hn
    have hlen := bufAfterRead_length env c w.mem.ext
    have hn2 : 0 ≤ (readResult env c w.mem.ext).n ∧
        (readResult env c w.mem.ext).n ≤ (MaxReadBufLen : Int) := by rw [hmax]; exact hn
    refine ⟨?_, hlen, rfl, ?_, readTrace c ++ rest, htrace, ?_⟩
    · intro w1
      simp [slicePrefix, hlen, hn2, bytesRead]
    · have h1 : (readResult env c w.mem.ext).n.toNat ≤ MaxReadBufLen := by
        have := hn2.2
        omega
      rw [bytesRead, List.length_take, hlen, Nat.min_eq_left h1]
      exact Int.toNat_of_nonneg hn.1
    · rw [List.filter_append, hdecode k hcodec herr hn2]
      simp [readTrace, Event.isDecode]

/-- The bounded-read lemma at connection 1, whose `Read` returns 4 bytes, with the codec
set. -/
theorem HandleMsg0_bounded_read_at_hitWorld :
    (hitWorld.mem.heap 0).conn = some 1 ∧ (demoEnv.Alive 1 hitWorld.mem.ext).1 = true ∧
    (∃ l, (routerHandler.HandleMsg0 demoEnv 0 hitWorld).2.trace = hitWorld.trace ++ l ∧
      l.filter Event.isRead = [Event.read 1 1024]) ∧
    (hitWorld.mem.heap 0).codec0 = some demoCodec ∧
    (readResult demoEnv 1 hitWorld.mem.ext).err = none ∧
    (readResult demoEnv 1 hitWorld.mem.ext).n = 4 ∧
    ((bytesRead demoEnv 1 hitWorld.mem.ext).length : Int) = 4 ∧
    ∃ l, (routerHandler.HandleMsg0 demoEnv 0 hitWorld).2.trace = hitWorld.trace ++ l ∧
      l.filter Event.isDecode =
        [Event.decode demoCodec (bytesRead demoEnv 1 hitWorld.mem.ext)] :=
  ⟨rfl, rfl, (HandleMsg0_bounded_read demoEnv 0 hitWorld 1 rfl rfl).2.1, rfl, rfl, rfl,
    ((HandleMsg0_bounded_read demoEnv 0 hitWorld 1 rfl rfl).2.2 demoCodec rfl rfl
      (by simp [readResult, demoEnv])).2.2.2.1,
    ((HandleMsg0_bounded_read demoEnv 0 hitWorld 1 rfl rfl).2.2 demoCodec rfl rfl
      (by simp [readResult, demoEnv])).2.2.2.2⟩

/-- C9: on the handler with a live connection and no codec, whose `Read` returns `n = 4`
with no error (so `0 ≤ n ≤ 1024`), the cycle invokes `Read` once with a 1024-byte buffer,
slices the first 4 bytes, and then panics on the nil codec: no `Decode` call is made, so
the first `n` bytes are handed to no codec. -/
theorem C9_no_decode_without_codec :
    (noCodecWorld.mem.heap 0).conn = some 1 ∧
    (noCodecWorld.mem.heap 0).codec0 = none ∧
    (demoEnv.Alive 1 noCodecWorld.mem.ext).1 = true ∧
    (readResult demoEnv 1 noCodecWorld.mem.ext).err = none ∧
    (readResult demoEnv 1 noCodecWorld.mem.ext).n = 4 ∧
    (routerHandler.HandleMsg0 demoEnv 0 noCodecWorld).1 = Res.abort ∧
    (routerHandler.HandleMsg0 demoEnv 0 noCodecWorld).2.trace =
      [Event.alive 1, Event.getRemoteHost 1, Event.getRemotePort 1, Event.read 1 1024,
        Event.logInfo "Receive msg[%s] from %s"] ∧
    (routerHandler.HandleMsg0 demoEnv 0 noCodecWorld).2.trace.filter Event.isDecode = [] := by
  have hrun := HandleMsg0_nil_codec demoEnv 0 noCodecWorld 1 rfl rfl rfl rfl
    (by simp [readResult, demoEnv, MaxReadBufLen])
  refine ⟨rfl, rfl, rfl, rfl, rfl, ?_, ?_, ?_⟩
  · rw [hrun]
  · rw [hrun]; rfl
  · rw [hrun]
    simp [readTrace, Event.isDecode, noCodecWorld, demoWorld]

/-! ## The write path -/

/-- C5 (write path): for a handler with codec `k` and bound connection `c`, if
`k.Encode(p)` fails with `e` then `write(p)` returns exactly `e`, having made the `Encode`
call only (no `Write`); otherwise `write(p)` makes one `Write` call, with the bytes
`Encode(p)` returned, and returns exactly the error (or nil) of that `Write`. -/
theorem C5_write_path (env : Env σ) (h : HandlerRef) (pkt : Packet) (w : World σ)
    (k : Icodec) (c : ConnRef)
    (hcodec : (w.mem.heap h).codec0 = some k) (hconn : (w.mem.heap h).conn = some c) :
    (∀ e, (k.Encode pkt).2 = some e →
      (baseHandler.write env h pkt w).1 = Res.ret (some e) ∧
      (baseHandler.write env h pkt w).2.trace = w.trace ++ [Event.encode k pkt] ∧
      ((baseHandler.write env h pkt w).2.trace.drop w.trace.length).filter Event.isWrite
        = [] ∧
      (baseHandler.write env h pkt w).2.mem = w.mem) ∧
    ((k.Encode pkt).2 = none →
      (baseHandler.write env h pkt w).1 =
        Res.ret (env.Write c (k.Encode pkt).1 w.mem.ext).1.2 ∧
      (baseHandler.write env h pkt w).2.trace =
        w.trace ++ [Event.encode k pkt, Event.write c (k.Encode pkt).1] ∧
      ((baseHandler.write env h pkt w).2.trace.drop w.trace.length).filter Event.isWrite
        = [Event.write c (k.Encode pkt).1] ∧
      (baseHandler.write env h pkt w).2.mem =
        { w.mem with ext := (env.Write c (k.Encode pkt).1 w.mem.ext).2 }) := by
  constructor
  · intro e henc
    rw [write_encode_error env h pkt w k e hcodec henc]
    refine ⟨rfl, rfl, ?_, rfl⟩
    simp [Event.isWrite]
  · intro henc
    rw [write_sent env h pkt w k c hcodec hconn henc]
    refine ⟨rfl, rfl, ?_, rfl⟩
    simp [Event.isWrite]

/-- C5 at handler 0 bound to connection 1: a packet that does not encode, and one that does. -/
theorem C5_write_path_witness :
    ((hitWorld.mem.heap 0).codec0 = some demoCodec ∧ (hitWorld.mem.heap 0).conn = some 1) ∧
    ((demoCodec.Encode badPacket).2 = some (Err.external "encode: body length mismatch") ∧
      (baseHandler.write demoEnv 0 badPacket hitWorld).1 =
        Res.ret (some (Err.external "encode: body length mismatch"))) ∧
    ((demoCodec.Encode demoPacket).2 = none ∧
      (baseHandler.write demoEnv 0 demoPacket hitWorld).2.trace =
        hitWorld.trace ++ [Event.encode demoCodec demoPacket,
          Event.write 1 (demoCodec.Encode demoPacket).1]) :=
  ⟨⟨rfl, rfl⟩,
    ⟨rfl, ((C5_write_path demoEnv 0 badPacket hitWorld demoCodec 1 rfl rfl).1 _ rfl).1⟩,
    ⟨rfl, ((C5_write_path demoEnv 0 demoPacket hitWorld demoCodec 1 rfl rfl).2 rfl).2.1⟩⟩

/-- C6 (lazy default codec on write): for a handler with a bound connection `c` and no
codec, `write(p)` obtains the default codec, encodes `p` with it and with no other codec,
returns nil whenever the default `Encode` and the connection's `Write` succeed, and leaves
the default codec in the handler's codec field; for a handler whose codec is `k`, `write`
encodes with `k` and with no other codec, never asks for the default codec, and leaves the
codec field equal to `k`. -/
theorem C6_lazy_default_codec (env : Env σ) (h : HandlerRef) (pkt : Packet) (w : World σ) :
    (∀ c, (w.mem.heap h).codec0 = none → (w.mem.heap h).conn = some c →
      ((baseHandler.write env h pkt w).2.mem.heap h).codec0 = some env.Default ∧
      (∃ rest, (baseHandler.write env h pkt w).2.trace =
          w.trace ++ Event.defaultCodec :: Event.encode env.Default pkt :: rest ∧
        rest.filter Event.isEncode = []) ∧
      ((env.Default.Encode pkt).2 = none →
        (env.Write c (env.Default.Encode pkt).1 w.mem.ext).1.2 = none →
        (baseHandler.write env h pkt w).1 = Res.ret none ∧
        (baseHandler.write env h pkt w).2.trace =
          w.trace ++ [Event.defaultCodec, Event.encode env.Default pkt,
            Event.write c (env.Default.Encode pkt).1])) ∧
    (∀ k, (w.mem.heap h).codec0 = some k →
      ((baseHandler.write env h pkt w).2.mem.heap h).codec0 = some k ∧
      ∃ rest, (baseHandler.write env h pkt w).2.trace =
          w.trace ++ Event.encode k pkt :: rest ∧
        rest.filter Event.isEncode = [] ∧ Event.defaultCodec ∉ rest) := by
  constructor
  · intro c hcodec hconn
    cases henc : (env.Default.Encode pkt).2 with
    | some e =>
      rw [write_default_encode_error env h pkt w e hcodec henc]
      refine ⟨by simp [heapWithDefault], ⟨[], by simp, rfl⟩, ?_⟩
      intro h1
      simp at h1
    | none =>
      rw [write_default_sent env h pkt w c hcodec hconn henc]
      refine ⟨by simp [heapWithDefault],
        ⟨[Event.write c (env.Default.Encode pkt).1], by simp, by simp [Event.isEncode]⟩, ?_⟩
      intro _ hw
      exact ⟨by rw [hw], rfl⟩
  · intro k hcodec
    cases henc : (k.Encode pkt).2 with
    | some e =>
      rw [write_encode_error env h pkt w k e hcodec henc]
      exact ⟨hcodec, [], rfl, rfl, by simp⟩
    | none =>
      cases hconn : (w.mem.heap h).conn with
      | none =>
        rw [write_nil_conn env h pkt w k hcodec hconn henc]
        exact ⟨hcodec, [], rfl, rfl, by simp⟩
      | some c =>
        rw [write_sent env h pkt w k c hcodec hconn henc]
        exact ⟨hcodec, [Event.write c (k.Encode pkt).1], rfl, by simp [Event.isEncode],
          by simp⟩

/-- C6 at handler 0 without a codec, bound to connection 1, and at handler 0 with the
codec. -/
theorem C6_lazy_default_codec_witness :
    ((noCodecWorld.mem.heap 0).codec0 = none ∧ (noCodecWorld.mem.heap 0).conn = some 1 ∧
      (demoEnv.Default.Encode demoPacket).2 = none ∧
      (demoEnv.Write 1 (demoEnv.Default.Encode demoPacket).1 noCodecWorld.mem.ext).1.2 = none ∧
      (baseHandler.write demoEnv 0 demoPacket noCodecWorld).1 = Res.ret none ∧
      ((baseHandler.write demoEnv 0 demoPacket noCodecWorld).2.mem.heap 0).codec0 =
        some demoEnv.Default) ∧
    ((hitWorld.mem.heap 0).codec0 = some demoCodec ∧
      ((baseHandler.write demoEnv 0 demoPacket hitWorld).2.mem.heap 0).codec0 =
        some demoCodec) :=
  ⟨⟨rfl, rfl, rfl, rfl,
      (((C6_lazy_default_codec demoEnv 0 demoPacket noCodecWorld).1 1 rfl rfl).2.2 rfl rfl).1,
      ((C6_lazy_default_codec demoEnv 0 demoPacket noCodecWorld).1 1 rfl rfl).1⟩,
    ⟨rfl, ((C6_lazy_default_codec demoEnv 0 demoPacket hitWorld).2 demoCodec rfl).1⟩⟩

/-- C8: `write` on a handler with no bound connection, once the encode has succeeded,
calls `Write` on the nil connection and panics; no result is returned. -/
theorem C8_write_nil_conn_aborts :
    (freshWorld.mem.heap 0).conn = none ∧
    (baseHandler.write demoEnv 0 demoPacket freshWorld).1 = Res.abort := by
  refine ⟨rfl, ?_⟩
  rw [write_default_nil_conn demoEnv 0 demoPacket freshWorld rfl rfl rfl]

/-- Building without a codec and running a cycle is a cycle on the built handler. -/
theorem cycleWithoutCodec_eq (env : Env σ) (c : ConnRef) (w : World σ) :
    cycleWithoutCodec env c w = routerHandler.HandleMsg0 env w.mem.next (afterBuild w c) := by
  simp [cycleWithoutCodec, RouteBuilder, builder.Conn, builder.Build, baseHandler.SetConn,
    Go.andThen, Go.alloc, Go.emit, Go.load, Go.store, afterBuild]

/-- C7: a cycle on the handler `RouteBuilder().Conn(1).Build()`, whose connection is alive
and delivers four bytes, calls `Decode` on the nil codec and panics after the read; no
result is returned, and the default codec is not consulted. -/
theorem C7_cycle_nil_codec_aborts :
    (demoEnv.Alive 1 freshWorld.mem.ext).1 = true ∧
    (readResult demoEnv 1 freshWorld.mem.ext).err = none ∧
    (readResult demoEnv 1 freshWorld.mem.ext).n = 4 ∧
    cycleWithoutCodec demoEnv 1 freshWorld =
      (Res.abort,
       { mem := { (afterBuild freshWorld 1).mem with
            ext := extAfterRead demoEnv 1 freshWorld.mem.ext },
         trace := [Event.setConn 20 (some 1)] ++ readTrace 1 ++
          [Event.logInfo "Receive msg[%s] from %s"] }) := by
  refine ⟨rfl, rfl, rfl, ?_⟩
  rw [cycleWithoutCodec_eq, HandleMsg0_nil_codec demoEnv freshWorld.mem.next
    (afterBuild freshWorld 1) 1 (by simp [afterBuild]) (by simp [afterBuild]) rfl rfl
    (by simp [readResult, demoEnv, MaxReadBufLen])]
  rfl

/-! ## The builder -/

/-- `Codec(k)` returns the same builder, stores `k` in the handler's codec field, and
changes nothing else of the heap. -/
theorem Codec_run (b : builder) (k : Option Icodec) (w : World σ) :
    b.Codec k w =
      (Res.ret b,
       { mem := { w.mem with
            heap := Function.update w.mem.heap b.handler
              { w.mem.heap b.handler with codec0 := k } },
         trace := w.trace ++ [Event.setCodec b.handler k] }) := by
  simp [builder.Codec, baseHandler.SetCodec, Go.andThen, Go.emit, Go.load, Go.store]

/-- `Conn(c)` returns the same builder, stores `c` in the handler's connection field, and
changes nothing else of the heap. -/
theorem Conn_run (b : builder) (c : Option ConnRef) (w : World σ) :
    b.Conn c w =
      (Res.ret b,
       { mem := { w.mem with
            heap := Function.update w.mem.heap b.handler
              { w.mem.heap b.handler with conn := c } },
         trace := w.trace ++ [Event.setConn b.handler c] }) := by
  simp [builder.Conn, baseHandler.SetConn, Go.andThen, Go.emit, Go.load, Go.store]

/-- A chain of calls returns the builder it started from; the handler's fields end as the
last `Codec` and the last `Conn` argument (as they were, where there is no such call); no
other handler object is touched. -/
theorem chain_run (calls : List BuilderCall) (b : builder) (w : World σ) :
    (chain calls b w).1 = Res.ret b ∧
    ((chain calls b w).2.mem.heap b.handler).codec0 =
      lastCodecArg calls (w.mem.heap b.handler).codec0 ∧
    ((chain calls b w).2.mem.heap b.handler).conn =
      lastConnArg calls (w.mem.heap b.handler).conn ∧
    (∀ h, h ≠ b.handler → (chain calls b w).2.mem.heap h = w.mem.heap h) ∧
    (chain calls b w).2.mem.next = w.mem.next := by
  induction calls generalizing w with
  | nil => simp [chain, lastCodecArg, lastConnArg]
  | cons call rest ih =>
    cases call with
    | Codec k =>
      have hstep : chain (BuilderCall.Codec k :: rest) b w = chain rest b (b.Codec k w).2 := by
        simp [chain, BuilderCall.run, Go.andThen, Codec_run]
      obtain ⟨h1, h2, h3, h4, h5⟩ := ih (b.Codec k w).2
      rw [hstep]
      refine ⟨h1, ?_, ?_, ?_, ?_⟩
      · rw [h2]
        simp [Codec_run, lastCodecArg, BuilderCall.codecArg, List.getLast?_cons]
      · rw [h3]
        simp [Codec_run, lastConnArg, BuilderCall.connArg]
      · intro h hne
        rw [h4 h hne]
        simp [Codec_run, Function.update_noteq hne]
      · rw [h5]
        simp [Codec_run]
    | Conn c =>
      have hstep : chain (BuilderCall.Conn c :: rest) b w = chain rest b (b.Conn c w).2 := by
        simp [chain, BuilderCall.run, Go.andThen, Conn_run]
      obtain ⟨h1, h2, h3, h4, h5⟩ := ih (b.Conn c w).2
      rw [hstep]
      refine ⟨h1, ?_, ?_, ?_, ?_⟩
      · rw [h2]
        simp [Conn_run, lastCodecArg, BuilderCall.codecArg]
      · rw [h3]
        simp [Conn_run, lastConnArg, BuilderCall.connArg, List.getLast?_cons]
      · intro h hne
        rw [h4 h hne]
        simp [Conn_run, Function.update_noteq hne]
      · rw [h5]
        simp [Conn_run]

/-- C10 (builder): for every chain of `Codec` and `Conn` calls on `RouteBuilder()`, each
call returns the builder it was made on (the same handler under construction), and
`Build()` returns that handler, freshly allocated, whose codec is the argument of the last
`Codec` call (unset if none) and whose connection is the argument of the last `Conn` call
(unset if none), every other handler object being untouched. `Codec` and `Conn` commute,
`Codec` leaves the connection field unchanged and `Conn` leaves the codec field
unchanged. -/
theorem C10_builder (calls : List BuilderCall) (w : World σ) :
    (buildWith calls w).1 = Res.ret w.mem.next ∧
    ((buildWith calls w).2.mem.heap w.mem.next).codec0 = lastCodecArg calls none ∧
    ((buildWith calls w).2.mem.heap w.mem.next).conn = lastConnArg calls none ∧
    (∀ h, h ≠ w.mem.next → (buildWith calls w).2.mem.heap h = w.mem.heap h) ∧
    (∀ (b : builder) (w1 : World σ), (chain calls b w1).1 = Res.ret b) ∧
    (∀ (b : builder) (k : Option Icodec) (c : Option ConnRef) (w1 : World σ),
      (b.Codec k w1).1 = Res.ret b ∧ (b.Conn c w1).1 = Res.ret b ∧
      ((b.Codec k w1).2.mem.heap b.handler).codec0 = k ∧
      ((b.Codec k w1).2.mem.heap b.handler).conn = (w1.mem.heap b.handler).conn ∧
      ((b.Conn c w1).2.mem.heap b.handler).conn = c ∧
      ((b.Conn c w1).2.mem.heap b.handler).codec0 = (w1.mem.heap b.handler).codec0 ∧
      (chain [BuilderCall.Codec k, BuilderCall.Conn c] b w1).1 =
        (chain [BuilderCall.Conn c, BuilderCall.Codec k] b w1).1 ∧
      (chain [BuilderCall.Codec k, BuilderCall.Conn c] b w1).2.mem =
        (chain [BuilderCall.Conn c, BuilderCall.Codec k] b w1).2.mem) := by
  have hbuild : buildWith calls w =
      ((chain calls ⟨w.mem.next⟩ (Go.alloc w).2).1.casesOn (fun b => Res.ret b.handler)
        Res.abort, (chain calls ⟨w.mem.next⟩ (Go.alloc w).2).2) := by
    simp only [buildWith, RouteBuilder, builder.Build, Go.run_bind, Go.andThen, Go.alloc,
      Go.run_pure]
    rcases chain calls ⟨w.mem.next⟩ _ with ⟨r, w2⟩
    cases r <;> rfl
  obtain ⟨h1, h2, h3, h4, _⟩ := chain_run calls ⟨w.mem.next⟩ (Go.alloc w).2
  refine ⟨?_, ?_, ?_, ?_, ?_, ?_⟩
  · rw [hbuild, h1]
  · rw [hbuild]
    simp only [] at h2 ⊢
    rw [h2]
    simp [Go.alloc]
  · rw [hbuild]
    simp only [] at h3 ⊢
    rw [h3]
    simp [Go.alloc]
  · intro h hne
    rw [hbuild]
    have := h4 h hne
    simp only [] at this ⊢
    rw [this]
    simp [Go.alloc, Function.update_noteq hne]
  · intro b w1
    exact (chain_run calls b w1).1
  · intro b k c w1
    refine ⟨by simp [Codec_run], by simp [Conn_run], by simp [Codec_run], by simp [Codec_run],
      by simp [Conn_run], by simp [Conn_run], ?_, ?_⟩
    · simp [chain, BuilderCall.run, Go.andThen, Codec_run, Conn_run]
    · simp [chain, BuilderCall.run, Go.andThen, Codec_run, Conn_run]

end Dusnet
